import Mathlib

/-!
Shallow embedding of `src/app.py` (leanttro/chatbot_grafica): a Flask backend
that persists print-shop orders into a PostgreSQL table `grafica`, keeps an
in-process snapshot of the most recent orders, and seeds a Gemini chat session
with a prompt embedding that snapshot as JSON.

Modelling conventions:
* Python/JSON values flowing through the app (request bodies, DB cells) are
  `JValue`.  `decimal.Decimal` (the type psycopg2 yields for NUMERIC columns)
  is `Dec`: a sign, a coefficient and a decimal scale, so the value is
  `±mant / 10^scale` with the scale preserved exactly, as `decimal.Decimal`
  does.
* The database table `grafica` is `Store`: a list of rows plus the next
  auto-assigned primary key.  The SQL `ORDER BY id DESC LIMIT n` of
  `get_grafica_data_for_bot` is denoted by sorting with respect to the
  descending-id order and taking `n`.
* Failures of external collaborators (PostgreSQL, the Gemini API) are passed
  to the handler functions as explicit outcome arguments; each constructor
  corresponds to one `except` arm of the source.
-/

namespace ChatbotGrafica

/-- Model of `decimal.Decimal`: value `±mant / 10^scale`, scale kept exactly
(`Decimal "1234.50"` is `⟨false, 123450, 2⟩`, distinct from
`⟨false, 12345, 1⟩`). -/
structure Dec where
  neg : Bool
  mant : Nat
  scale : Nat
deriving DecidableEq, Repr

/-- Python/JSON values as they appear in request bodies and table cells.
`jnull` is Python `None` / SQL `NULL`. -/
inductive JValue where
  | jnull
  | jbool (b : Bool)
  | jint (n : Int)
  | jdec (d : Dec)
  | jstr (s : String)
deriving DecidableEq, Repr

/-- Python truthiness of a `JValue` (`bool(x)` in Python):
`None`, `False`, `0`, `Decimal(0)` and `""` are falsy. -/
def JValue.falsy : JValue → Bool
  | .jnull => true
  | .jbool b => !b
  | .jint n => n == 0
  | .jdec d => d.mant == 0
  | .jstr s => s == ""

/-- Python `dict.get(k)`: a missing key yields `None`. -/
def pyGet (o : Option JValue) : JValue := o.getD .jnull

/-- Python `x or None` as used on the optional columns of the insert:
a falsy value collapses to `None`. -/
def pyOrNone (v : JValue) : JValue := if v.falsy then .jnull else v

/-- `str(Decimal)` for a decimal with a nonpositive exponent, the form NUMERIC
columns come back in from psycopg2 (no scientific notation): the coefficient
digits, zero-padded on the left to at least `scale + 1` digits, with a point
inserted before the last `scale` digits when `scale > 0`, and a leading sign.
`str(Decimal("1234.50")) = "1234.50"`, `str(Decimal("0.005")) = "0.005"`. -/
def Dec.str (d : Dec) : String :=
  let ds := (toString d.mant).data
  let ds := List.replicate (d.scale + 1 - ds.length) '0' ++ ds
  let body :=
    if d.scale = 0 then ds
    else ds.take (ds.length - d.scale) ++ '.' :: ds.drop (ds.length - d.scale)
  String.mk (if d.neg then '-' :: body else body)

/-- Two lowercase hex digits of `n % 256`, for JSON `\u00XX` escapes. -/
def hexDigit (n : Nat) : Char :=
  if n < 10 then Char.ofNat ('0'.toNat + n) else Char.ofNat ('a'.toNat + (n - 10))

/-- `json.dumps` escaping of one character with `ensure_ascii=False`:
quote, backslash and control characters are escaped, everything else
(including non-ASCII) is kept verbatim. -/
def jsonEscapeChar (c : Char) : String :=
  if c = '"' then "\\\""
  else if c = '\\' then "\\\\"
  else if c = '\n' then "\\n"
  else if c = '\t' then "\\t"
  else if c = '\r' then "\\r"
  else if c.toNat < 32 then
    "\\u00" ++ String.mk [hexDigit (c.toNat / 16), hexDigit (c.toNat % 16)]
  else String.singleton c

/-- A JSON string literal: `json.dumps` of a Python `str`. -/
def jsonStr (s : String) : String :=
  "\"" ++ String.join (s.data.map jsonEscapeChar) ++ "\""

/-- `json.dumps(v, cls=DecimalEncoder, ensure_ascii=False)` on a scalar value.
`DecimalEncoder.default` turns a `Decimal` into `str(obj)`, which the encoder
then serialises as a JSON string — the exact decimal text, never a binary
float. -/
def JValue.toJson : JValue → String
  | .jnull => "null"
  | .jbool b => if b then "true" else "false"
  | .jint n => toString n
  | .jdec d => jsonStr d.str
  | .jstr s => jsonStr s

/-- One row of the `grafica` table.  `id` is the store-assigned primary key;
every other column holds a `JValue` (with `jnull` for SQL `NULL`). -/
structure Record where
  id : Nat
  quantidade : JValue
  produto : JValue
  material : JValue
  impressao : JValue
  largura : JValue
  altura : JValue
  tipo_de_corte : JValue
  acabamento : JValue
  extra : JValue
  valor_final : JValue
deriving DecidableEq, Repr

/-- The `grafica` table: its rows plus the next value of the auto-assigned
primary key. -/
structure Store where
  rows : List Record
  nextId : Nat
deriving DecidableEq, Repr

/-- Store invariant maintained by the auto-assigned primary key: row ids are
strictly increasing in insertion order and below `nextId`. -/
def Store.WF (s : Store) : Prop :=
  s.rows.Pairwise (fun a b => a.id < b.id) ∧ ∀ r ∈ s.rows, r.id < s.nextId

/-- The columns selected by `get_grafica_data_for_bot`:
`SELECT id, quantidade, produto, material, impressao, largura, altura,
valor_final` — note `tipo_de_corte`, `acabamento` and `extra` are not
selected. -/
structure BotRow where
  id : Nat
  quantidade : JValue
  produto : JValue
  material : JValue
  impressao : JValue
  largura : JValue
  altura : JValue
  valor_final : JValue
deriving DecidableEq, Repr

/-- Projection of a table row to the selected columns. -/
def Record.toBotRow (r : Record) : BotRow :=
  ⟨r.id, r.quantidade, r.produto, r.material, r.impressao, r.largura,
   r.altura, r.valor_final⟩

/-- The descending-id order used by `ORDER BY id DESC`. -/
def idGe (a b : Record) : Prop := b.id ≤ a.id

instance : DecidableRel idGe := fun a b => Nat.decLe b.id a.id

instance : IsTotal Record idGe := ⟨fun a b => Nat.le_total b.id a.id⟩

instance : IsTrans Record idGe := ⟨fun _ _ _ h h' => Nat.le_trans h' h⟩

/-- Denotation of `SELECT id, ... FROM grafica ORDER BY id DESC LIMIT limit`
with a `RealDictCursor`: the rows sorted by descending id, truncated to
`limit`, each projected to the selected columns. -/
def selectIdDescLimit (s : Store) (limit : Nat) : List BotRow :=
  ((List.insertionSort idGe s.rows).take limit).map Record.toBotRow

/-- The ways the data-access layer can fail, one per `except` arm of
`get_grafica_data_for_bot`: the `grafica` table is absent
(`psycopg2.errors.UndefinedTable`), the connection cannot be established
(`get_db_connection` raising), or any other exception. -/
inductive DBError where
  | undefinedTable
  | connectionFailed
  | otherFailure
deriving DecidableEq, Repr

/-- `get_grafica_data_for_bot(limit=50)`: on a reachable store it returns the
most recent `limit` rows, most-recent-first; the `UndefinedTable` arm and the
generic `except` arm both absorb the failure into `[]`. -/
def get_grafica_data_for_bot (db : Except DBError Store) (limit : Nat := 50) :
    List BotRow :=
  match db with
  | .ok s => selectIdDescLimit s limit
  | .error .undefinedTable => []
  | .error .connectionFailed => []
  | .error .otherFailure => []

/-- `json.dumps` of one `RealDictCursor` row (a dict in column order),
with `separators=(',', ':')`. -/
def BotRow.toJson (r : BotRow) : String :=
  "\x7b\"id\":" ++ toString r.id ++
  ",\"quantidade\":" ++ r.quantidade.toJson ++
  ",\"produto\":" ++ r.produto.toJson ++
  ",\"material\":" ++ r.material.toJson ++
  ",\"impressao\":" ++ r.impressao.toJson ++
  ",\"largura\":" ++ r.largura.toJson ++
  ",\"altura\":" ++ r.altura.toJson ++
  ",\"valor_final\":" ++ r.valor_final.toJson ++ "\x7d"

/-- `json.dumps(registros, cls=DecimalEncoder, ensure_ascii=False,
separators=(',', ':'))`: the serialised Context Snapshot. -/
def rowsToJson (rs : List BotRow) : String :=
  "[" ++ String.intercalate "," (rs.map BotRow.toJson) ++ "]"


/-! ### The system prompt and the chat session -/

/-- The module-level `SYSTEM_PROMPT` f-string, split around the interpolated
`grafica_json_context`. -/
def promptPre0 : String :=
"\n\x23 ALTERADO: Removido \"Teclabel\" e ajustada a persona\nVocê é o \x27GrafiBot\x27, um assistente virtual amigável e especialista, focado em ajudar orçamentistas de gráfica a obterem *estimativas* de orçamento para produtos gráficos.\nSua única fonte de verdade para estimativas é a base de dados de pedidos recentes em JSON fornecida abaixo.\n\n--- BASE DE DADOS (Pedidos Recentes - JSON) ---\n"

def promptPost0 : String :=
"\n--- FIM DA BASE DE DADOS ---\n\n**FLUXO DE CONVERSA PARA ORÇAMENTO (SIGA ESTRITAMENTE):**\n\n1.  **Saudação Amigável e Apresentação:** Comece sempre com algo como: \"Olá! 👋 Sou o GrafiBot, seu assistente virtual para orçamentistas de gráfica. Estou aqui para ajudar a estimar o valor do seu próximo pedido ou consultar registros recentes. Como posso te ajudar hoje?\" \x23 ALTERADO: Removido \"Teclabel\"\n2.  **Identifique a Intenção (Orçamento):** Se o usuário expressar interesse em preço, orçamento, cotação ou valor:\n    * **Pergunte o Essencial (1ª pergunta):** \"Legal! Para começarmos, me diga qual **produto** você tem em mente e a **quantidade** aproximada.\"\n    * **Colete Detalhes Essenciais (Perguntas seguintes, UMA DE CADA VEZ):** Baseado na resposta, pergunte educadamente pelos detalhes CHAVE que você vê na BASE DE DADOS (Material, Impressão, Tamanho). Exemplos:\n        * \"Entendido. E qual **material** você está pensando para essas etiquetas?\"\n        * \"Perfeito. E como seria a **impressão**? (Ex: 4x0 cores, 1x0 cor, digital...)\"\n        * \"Anotado! Qual o **tamanho** aproximado que você precisa (Largura x Altura em cm)?\"\n    * **Continue perguntando** até ter pelo menos: Produto, Quantidade, Material e Impressão. O tamanho é bom ter, mas opcional se não souber.\n3.  **Confirme os Dados Coletados:** Antes de prosseguir, recapitule de forma clara: \"Ok, vamos confirmar: Você precisa de [Quantidade] [Produto] em [Material], com impressão [Impressão] e tamanho aproximado [LxA cm, se informado]. É isso mesmo?\"\n4.  **Busque e Forneça a ESTIMATIVA (SEMPRE):** Se o usuário confirmar:\n    * Procure na BASE DE DADOS por 1 ou 2 pedidos **o mais similares possível** (mesmo produto/material, quantidade próxima).\n    * **APRESENTE A ESTIMATIVA:** \"Com base em pedidos recentes parecidos que encontrei aqui, uma estimativa para o seu pedido seria **em torno de R$ XXX,XX**.\"\n    * **JUSTIFIQUE COM EXEMPLO:** \"Para você ter uma ideia, encontrei o pedido ID [ID do Exemplo], que foram [Qtd Exemplo] [Produto Exemplo] em [Material Exemplo], e o valor final ficou em R$ [Valor Exemplo].\" (Use apenas UM exemplo claro).\n    * **REFORCE QUE É ESTIMATIVA:** Conclua SEMPRE com: \"**Lembre-se: este é apenas um valor estimado** baseado em pedidos anteriores, ok? Para um orçamento exato e formal, por favor, preencha o formulário de cadastro na página.\"\n5.  **Se Não Achar Similar:** Seja honesto: \"Hmm, não encontrei pedidos recentes muito parecidos com essas especificações na minha base para dar uma estimativa confiável 🤔. Recomendo preencher o formulário na página para receber um orçamento preciso da nossa equipe.\"\n\n**OUTRAS REGRAS:**\n\n* **Consulta de Vendas:** Se o usuário perguntar sobre vendas/pedidos recentes, liste os 3-5 exemplos mais recentes da BASE DE DADOS de forma resumida (ID, Produto, Qtd, Valor).\n* **NÃO ALUCINE:** Jamais invente preços, produtos, materiais ou características. Se não está na base, não existe para você.\n* **SEJA CONVERSACIONAL e PACIENTE:** Use emojis leves (👋, 👍, 🤔, ✅), seja educado e guie o usuário passo a passo.\n* **FOCO NA GRÁFICA:** Responda apenas sobre orçamentos e pedidos da gráfica. Recuse educadamente outros assuntos.\n"

def promptPreR : String :=
"\n        \x23 ALTERADO: Removido \"Teclabel\" e ajustada a persona\n        Você é o \x27GrafiBot\x27, um assistente virtual amigável e especialista, focado em ajudar orçamentistas de gráfica a obterem *estimativas* de orçamento para produtos gráficos.\n        Sua única fonte de verdade para estimativas é a base de dados de pedidos recentes em JSON fornecida abaixo.\n\n        --- BASE DE DADOS (Pedidos Recentes - JSON) ---\n        "

def promptPostR : String :=
"\n        --- FIM DA BASE DE DADOS ---\n\n        **FLUXO DE CONVERSA PARA ORÇAMENTO (SIGA ESTRITAMENTE):**\n\n        1.  **Saudação Amigável e Apresentação:** Comece sempre com algo como: \"Olá! 👋 Sou o GrafiBot, seu assistente virtual para orçamentistas de gráfica. Estou aqui para ajudar a estimar o valor do seu próximo pedido ou consultar registros recentes. Como posso te ajudar hoje?\" \x23 ALTERADO: Removido \"Teclabel\"\n        2.  **Identifique a Intenção (Orçamento):** Se o usuário expressar interesse em preço, orçamento, cotação ou valor:\n            * **Pergunte o Essencial (1ª pergunta):** \"Legal! Para começarmos, me diga qual **produto** você tem em mente e a **quantidade** aproximada.\"\n            * **Colete Detalhes Essenciais (Perguntas seguintes, UMA DE CADA VEZ):** Baseado na resposta, pergunte educadamente pelos detalhes CHAVE que você vê na BASE DE DADOS (Material, Impressão, Tamanho). Exemplos:\n                * \"Entendido. E qual **material** você está pensando para essas etiquetas?\"\n                * \"Perfeito. E como seria a **impressão**? (Ex: 4x0 cores, 1x0 cor, digital...)\"\n                * \"Anotado! Qual o **tamanho** aproximado que você precisa (Largura x Altura em cm)?\"\n            * **Continue perguntando** até ter pelo menos: Produto, Quantidade, Material e Impressão. O tamanho é bom ter, mas opcional se não souber.\n        3.  **Confirme os Dados Coletados:** Antes de prosseguir, recapitule de forma clara: \"Ok, vamos confirmar: Você precisa de [Quantidade] [Produto] em [Material], com impressão [Impressão] e tamanho aproximado [LxA cm, se informado]. É isso mesmo?\"\n        4.  **Busque e Forneça a ESTIMATIVA (SEMPRE):** Se o usuário confirmar:\n            * Procure na BASE DE DADOS por 1 ou 2 pedidos **o mais similares possível** (mesmo produto/material, quantidade próxima).\n            * **APRESENTE A ESTIMATIVA:** \"Com base em pedidos recentes parecidos que encontrei aqui, uma estimativa para o seu pedido seria **em torno de R$ XXX,XX**.\"\n            * **JUSTIFIQUE COM EXEMPLO:** \"Para você ter uma ideia, encontrei o pedido ID [ID do Exemplo], que foram [Qtd Exemplo] [Produto Exemplo] em [Material Exemplo], e o valor final ficou em R$ [Valor Exemplo].\" (Use apenas UM exemplo claro).\n            * **REFORCE QUE É ESTIMATIVA:** Conclua SEMPRE com: \"**Lembre-se: este é apenas um valor estimado** baseado em pedidos anteriores, ok? Para um orçamento exato e formal, por favor, preencha o formulário de cadastro na página.\"\n        5.  **Se Não Achar Similar:** Seja honesto: \"Hmm, não encontrei pedidos recentes muito parecidos com essas especificações na minha base para dar uma estimativa confiável 🤔. Recomendo preencher o formulário na página para receber um orçamento preciso da nossa equipe.\"\n\n        **OUTRAS REGRAS:**\n\n        * **Consulta de Vendas:** Se o usuário perguntar sobre vendas/pedidos recentes, liste os 3-5 exemplos mais recentes da BASE DE DADOS de forma resumida (ID, Produto, Qtd, Valor).\n        * **NÃO ALUCINE:** Jamais invente preços, produtos, materiais ou características. Se não está na base, não existe para você.\n        * **SEJA CONVERSACIONAL e PACIENTE:** Use emojis leves (👋, 👍, 🤔, ✅), seja educado e guie o usuário passo a passo.\n        * **FOCO NA GRÁFICA:** Responda apenas sobre orçamentos e pedidos da gráfica. Recuse educadamente outros assuntos.\n        "

/-- The module-level `SYSTEM_PROMPT = f"""..."""`: the fixed template with the
serialised Context Snapshot interpolated. -/
def buildSystemPrompt (ctx : String) : String :=
  promptPre0 ++ ctx ++ promptPost0

/-- The `SYSTEM_PROMPT` rebuilt inside `registrar_pedido` (same template text,
indented eight spaces in the source, hence a distinct literal). -/
def buildRefreshPrompt (ctx : String) : String :=
  promptPreR ++ ctx ++ promptPostR

/-- One turn of a Gemini chat history: a role and its text parts. -/
structure Turn where
  role : String
  parts : String
deriving DecidableEq, Repr

/-- The fixed opening model turn of the initial session. -/
def initialGreeting : String :=
  "Olá! 👋 Sou o GrafiBot, seu assistente virtual para orçamentistas de gráfica. Estou aqui para ajudar a estimar o valor do seu próximo pedido ou consultar registros recentes. Como posso te ajudar hoje?"

/-- The fixed opening model turn of a refreshed session. -/
def refreshAck : String :=
  "Entendido. Sou o GrafiBot e minha base de pedidos foi atualizada com o último registro. Pronto para ajudar."

/-- `model.start_chat(history=[...])`: a session seeded with the instruction
prompt as a synthetic user turn and a fixed model acknowledgement. -/
def start_chat (prompt ack : String) : List Turn :=
  [⟨"user", prompt⟩, ⟨"model", ack⟩]

/-- The process-wide mutable globals of `app.py`: the table (external store),
`grafica_data_context`, `grafica_json_context`, `SYSTEM_PROMPT`, whether
`model` was initialised, and `chat_session`. -/
structure AppState where
  store : Store
  grafica_data_context : List BotRow
  grafica_json_context : String
  system_prompt : String
  model_available : Bool
  chat_session : Option (List Turn)
deriving DecidableEq, Repr

/-! ### The chat handler -/

/-- Outcome of `chat_session.send_message`: a reply, a
`StopCandidateException` (safety block), or any other exception. -/
inductive GeminiOutcome where
  | text (reply : String)
  | stopCandidate
  | failure
deriving DecidableEq, Repr

/-- Responses of `/api/chat`: 200 `{'reply': ...}`, 400 `{'error': ...}`,
or 503 `{'error': ...}`. -/
inductive ChatResponse where
  | reply (text : String)
  | badRequest (error : String)
  | unavailable (error : String)
deriving DecidableEq, Repr

def chatUnavailableMsg : String := "Serviço de chat indisponível no momento."

def emptyMessageMsg : String := "Mensagem não pode ser vazia."

/-- The fixed polite refusal returned when the API blocks a response. -/
def refusalReply : String :=
  "Desculpe, não posso gerar uma resposta para essa solicitação específica. Posso ajudar com orçamentos ou consulta de pedidos?"

def chatErrorMsg : String := "Ocorreu um erro ao processar sua mensagem com a IA."

/-- `handle_chat` (`POST /api/chat`).  `data` is `request.json`: `none` when
the body is the JSON literal `null` (then `data.get('message')` raises
`AttributeError`, caught by the generic `except` into a 503); otherwise
`some m` where `m` is the lookup of the `message` key.  `outcome` is the
collaborator's behaviour on `send_message`. -/
def handle_chat (st : AppState) (data : Option (Option JValue))
    (outcome : GeminiOutcome) : ChatResponse :=
  if !st.model_available || st.chat_session.isNone then
    .unavailable chatUnavailableMsg
  else
    match data with
    | none => .unavailable chatErrorMsg
    | some m =>
      let user_message := pyGet m
      if user_message.falsy then .badRequest emptyMessageMsg
      else
        match outcome with
        | .text t => .reply t
        | .stopCandidate => .reply refusalReply
        | .failure => .unavailable chatErrorMsg

/-! ### The order-submission handler -/

/-- The JSON body of `POST /api/registrar_pedido`, over the ten keys the
handler reads.  A field is `none` when the key is absent from the dict and
`some v` when present with value `v` (possibly `jnull`). -/
structure Dados where
  quantidade : Option JValue
  produto : Option JValue
  material : Option JValue
  impressao : Option JValue
  largura : Option JValue
  altura : Option JValue
  tipoCorte : Option JValue
  acabamento : Option JValue
  extra : Option JValue
  valorFinal : Option JValue
deriving DecidableEq, Repr

/-- Python `not dados` for a dict over these keys: true exactly when the dict
is empty. -/
def Dados.isEmpty (d : Dados) : Bool :=
  d.quantidade.isNone && d.produto.isNone && d.material.isNone &&
  d.impressao.isNone && d.largura.isNone && d.altura.isNone &&
  d.tipoCorte.isNone && d.acabamento.isNone && d.extra.isNone &&
  d.valorFinal.isNone

/-- The row built by the `INSERT INTO grafica ... VALUES` tuple: `dict.get`
for every column, with `or None` applied to `largura`, `altura`, `tipoCorte`
and `extra` only. -/
def mkRecord (id : Nat) (d : Dados) : Record where
  id := id
  quantidade := pyGet d.quantidade
  produto := pyGet d.produto
  material := pyGet d.material
  impressao := pyGet d.impressao
  largura := pyOrNone (pyGet d.largura)
  altura := pyOrNone (pyGet d.altura)
  tipo_de_corte := pyOrNone (pyGet d.tipoCorte)
  acabamento := pyGet d.acabamento
  extra := pyOrNone (pyGet d.extra)
  valor_final := pyGet d.valorFinal

/-- The committed effect of `cur.execute(sql_insert, valores); conn.commit()`:
one appended row with the next primary key. -/
def Store.insert (s : Store) (d : Dados) : Store :=
  ⟨s.rows ++ [mkRecord s.nextId d], s.nextId + 1⟩

/-- Outcome of the connect/insert/commit phase, one constructor per `except`
arm it can reach: success, `psycopg2.errors.UndefinedTable`, another
`psycopg2.Error`, or any other exception (e.g. `get_db_connection` raising
`ValueError`), which falls to the generic `except`. -/
inductive InsertOutcome where
  | ok
  | undefinedTable
  | dbError
  | otherError
deriving DecidableEq, Repr

/-- Responses of `/api/registrar_pedido`: 201 `{'success': ...}`,
400 `{'error': ...}`, or 500 `{'error': ...}`. -/
inductive PedidoResponse where
  | created (success : String)
  | badRequest (error : String)
  | serverError (error : String)
deriving DecidableEq, Repr

def incompleteMsg : String := "Dados incompletos para registrar o pedido."

def tableMissingMsg : String := "Erro interno: Tabela \x27grafica\x27 não encontrada."

def dbSaveErrorMsg : String := "Erro ao salvar o pedido no banco de dados."

def internalErrorMsg : String := "Erro interno do servidor ao registrar pedido."

def pedidoSuccessMsg : String := "Pedido registrado! O chatbot já está ciente deste novo pedido."

/-- `registrar_pedido` (`POST /api/registrar_pedido`).  `dados` is
`request.json` (`none` for a `null` body, which is falsy like an empty dict).
`ins` is the outcome of the connect/insert/commit phase; `fetchErr` injects a
failure into the context reload of the refresh; `startChatFails` makes
`model.start_chat` raise.  A `start_chat` failure reaches the generic
`except`, whose `conn.rollback()` is a no-op because the insert was already
committed, so the written row persists; the globals assigned before the
failure also keep their new values and the old `chat_session` survives. -/
def registrar_pedido (st : AppState) (dados : Option Dados)
    (ins : InsertOutcome) (fetchErr : Option DBError)
    (startChatFails : Bool) : AppState × PedidoResponse :=
  match dados with
  | none => (st, .badRequest incompleteMsg)
  | some d =>
    if d.isEmpty || d.quantidade.isNone || d.produto.isNone ||
        d.valorFinal.isNone then
      (st, .badRequest incompleteMsg)
    else
      match ins with
      | .undefinedTable => (st, .serverError tableMissingMsg)
      | .dbError => (st, .serverError dbSaveErrorMsg)
      | .otherError => (st, .serverError internalErrorMsg)
      | .ok =>
        let store2 := st.store.insert d
        let newData := get_grafica_data_for_bot
          (match fetchErr with | some e => .error e | none => .ok store2) 50
        let newJson := rowsToJson newData
        let newPrompt := buildRefreshPrompt newJson
        let stMid : AppState :=
          { st with store := store2, grafica_data_context := newData,
                    grafica_json_context := newJson,
                    system_prompt := newPrompt }
        if st.model_available then
          if startChatFails then
            (stMid, .serverError internalErrorMsg)
          else
            ({ stMid with
                chat_session := some (start_chat newPrompt refreshAck) },
             .created pedidoSuccessMsg)
        else
          (stMid, .created pedidoSuccessMsg)

/-! ### Helper lemmas -/

/-- When the three required keys are present, the validation guard of
`registrar_pedido` is false. -/
theorem valid_cond_false (d : Dados) (hq : d.quantidade.isSome = true)
    (hp : d.produto.isSome = true) (hv : d.valorFinal.isSome = true) :
    (d.isEmpty || d.quantidade.isNone || d.produto.isNone ||
      d.valorFinal.isNone) = false := by
  obtain ⟨q, hq2⟩ := Option.isSome_iff_exists.mp hq
  obtain ⟨p, hp2⟩ := Option.isSome_iff_exists.mp hp
  obtain ⟨v, hv2⟩ := Option.isSome_iff_exists.mp hv
  simp [Dados.isEmpty, hq2, hp2, hv2]

/-- Evaluation of `registrar_pedido` on the path where validation passes and
the insert commits. -/
theorem registrar_pedido_ok (st : AppState) (d : Dados) (fe : Option DBError)
    (scf : Bool) (hq : d.quantidade.isSome = true)
    (hp : d.produto.isSome = true) (hv : d.valorFinal.isSome = true) :
    registrar_pedido st (some d) .ok fe scf =
      (let store2 := st.store.insert d
       let newData := get_grafica_data_for_bot
         (match fe with | some e => .error e | none => .ok store2) 50
       let newPrompt := buildRefreshPrompt (rowsToJson newData)
       let stMid : AppState :=
         { st with store := store2, grafica_data_context := newData,
                   grafica_json_context := rowsToJson newData,
                   system_prompt := newPrompt }
       if st.model_available then
         if scf then (stMid, .serverError internalErrorMsg)
         else ({ stMid with
                  chat_session := some (start_chat newPrompt refreshAck) },
               .created pedidoSuccessMsg)
       else (stMid, .created pedidoSuccessMsg)) := by
  simp only [registrar_pedido, valid_cond_false d hq hp hv,
    Bool.false_eq_true, if_false]

/-- `head?` of a truncation at a nonzero length. -/
theorem head?_take_of_ne_zero {α : Type} (l : List α) (n : Nat) (hn : n ≠ 0) :
    (l.take n).head? = l.head? := by
  cases l with
  | nil => simp
  | cons a t =>
    cases n with
    | zero => exact absurd rfl hn
    | succ m => simp [List.take]

/-- Sorting by descending id puts an element of strictly greatest id at the
head. -/
theorem head_sort_append_max (l : List Record) (r : Record)
    (h : ∀ x ∈ l, x.id < r.id) :
    (List.insertionSort idGe (l ++ [r])).head? = some r := by
  have hperm := List.perm_insertionSort idGe (l ++ [r])
  have hsorted := List.sorted_insertionSort idGe (l ++ [r])
  have hrmem : r ∈ List.insertionSort idGe (l ++ [r]) :=
    (List.mem_insertionSort idGe).mpr (List.mem_append_right l (by simp))
  cases hs : List.insertionSort idGe (l ++ [r]) with
  | nil => rw [hs] at hrmem; exact absurd hrmem (List.not_mem_nil r)
  | cons h0 t =>
    rw [hs] at hperm hsorted hrmem
    simp only [List.head?_cons, Option.some.injEq]
    have hmem0 : h0 ∈ l ++ [r] := hperm.subset (List.mem_cons_self h0 t)
    rcases List.mem_append.mp hmem0 with hl | hr
    · exfalso
      rcases List.mem_cons.mp hrmem with he | ht
      · rw [he] at h; exact Nat.lt_irrefl _ (h h0 hl)
      · have hle : idGe h0 r := (List.pairwise_cons.mp hsorted).1 r ht
        exact Nat.lt_irrefl _ (Nat.lt_of_lt_of_le (h h0 hl) hle)
    · exact List.mem_singleton.mp hr

/-! ### C2: the Context Loader returns min(N, L) records, most-recent-first -/

/-- C2: for every store state with `N ≥ 0` rows (ids distinct, as the
auto-assigned primary key guarantees) and every limit `L`, the Context Loader
returns exactly `min N L` records, ordered most-recent-first (strictly
descending) by identifier. -/
theorem claim_C2_loader_min_desc (s : Store) (L : Nat)
    (hids : (s.rows.map Record.id).Nodup) :
    (get_grafica_data_for_bot (.ok s) L).length = min s.rows.length L ∧
    (get_grafica_data_for_bot (.ok s) L).Pairwise
      (fun a b => b.id < a.id) := by
  constructor
  · simp only [get_grafica_data_for_bot, selectIdDescLimit, List.length_map,
      List.length_take, List.length_insertionSort]
    exact Nat.min_comm L s.rows.length
  · have hperm := List.perm_insertionSort idGe s.rows
    have hsorted : (List.insertionSort idGe s.rows).Pairwise idGe :=
      List.sorted_insertionSort idGe s.rows
    have hnodup : ((List.insertionSort idGe s.rows).map Record.id).Nodup :=
      ((hperm.map Record.id).nodup_iff).mpr hids
    have hne : (List.insertionSort idGe s.rows).Pairwise
        (fun a b => Record.id a ≠ Record.id b) :=
      List.pairwise_map.mp hnodup
    have hstrict : (List.insertionSort idGe s.rows).Pairwise
        (fun a b => b.id < a.id) :=
      (hsorted.and hne).imp
        (fun hab => Nat.lt_of_le_of_ne hab.1 (fun e => hab.2 e.symm))
    have htake := hstrict.sublist (List.take_sublist L _)
    simp only [get_grafica_data_for_bot, selectIdDescLimit]
    exact List.pairwise_map.mpr htake

/-- Sample rows used by concrete witnesses. -/
def rowA : Record :=
  ⟨1, .jint 1000, .jstr "Etiquetas", .jstr "BOPP", .jstr "4x0",
   .jdec ⟨false, 50, 1⟩, .jdec ⟨false, 30, 1⟩, .jnull, .jstr "Verniz",
   .jnull, .jdec ⟨false, 35000, 2⟩⟩

def rowB : Record :=
  ⟨2, .jint 500, .jstr "Flyers", .jstr "Couché", .jstr "4x4", .jnull,
   .jnull, .jstr "Reto", .jstr "Sem", .jstr "Urgente",
   .jdec ⟨false, 19900, 2⟩⟩

def rowC : Record :=
  ⟨3, .jint 100, .jstr "Banners", .jstr "Lona", .jstr "4x0",
   .jdec ⟨false, 100, 0⟩, .jdec ⟨false, 80, 0⟩, .jnull, .jstr "Ilhós",
   .jnull, .jdec ⟨false, 45000, 2⟩⟩

def storeW : Store := ⟨[rowA, rowB, rowC], 4⟩

/-- Witness for C2 at a concrete three-row store and limit 2. -/
theorem claim_C2_witness :
    (get_grafica_data_for_bot (.ok storeW) 2).length =
      min storeW.rows.length 2 ∧
    (get_grafica_data_for_bot (.ok storeW) 2).Pairwise
      (fun a b => b.id < a.id) :=
  claim_C2_loader_min_desc storeW 2 (by decide)

/-! ### C3: the Context Loader absorbs every storage failure -/

/-- C3: on every data-access failure — the `grafica` table absent, the
connection failing, or any other error — the Context Loader returns the empty
sequence instead of propagating the exception (the embedding is a total
function, so no exception can escape). -/
theorem claim_C3_loader_absorbs_failures :
    ∀ (e : DBError) (L : Nat), get_grafica_data_for_bot (.error e) L = [] := by
  intro e L
  cases e <;> rfl

/-! ### C4: missing required fields give a 400 and no write -/

/-- C4: whenever the body is absent or lacks any of `quantidade`, `produto`,
`valorFinal`, the handler leaves the whole application state (in particular
the Order Store) untouched and returns the 400 response, for every behaviour
of the collaborators. -/
theorem claim_C4_missing_required_no_write (st : AppState)
    (dados : Option Dados) (ins : InsertOutcome) (fe : Option DBError)
    (scf : Bool)
    (hmiss : dados = none ∨ ∃ d, dados = some d ∧
      (d.quantidade = none ∨ d.produto = none ∨ d.valorFinal = none)) :
    registrar_pedido st dados ins fe scf = (st, .badRequest incompleteMsg) := by
  rcases hmiss with hnone | ⟨d, hd, hfield⟩
  · rw [hnone]; rfl
  · rw [hd]
    have hcond : (d.isEmpty || d.quantidade.isNone || d.produto.isNone ||
        d.valorFinal.isNone) = true := by
      rcases hfield with h | h | h <;> simp [h]
    simp [registrar_pedido, hcond]

/-- A body missing `produto` (all other fields present). -/
def dadosNoProduto : Dados :=
  ⟨some (.jint 250), none, some (.jstr "Papel"), some (.jstr "1x0"),
   some (.jdec ⟨false, 210, 1⟩), some (.jdec ⟨false, 297, 1⟩), none,
   some (.jstr "Sem"), none, some (.jdec ⟨false, 12000, 2⟩)⟩

/-- A concrete app state used by several witnesses. -/
def stW : AppState :=
  { store := storeW
  , grafica_data_context := get_grafica_data_for_bot (.ok storeW) 50
  , grafica_json_context :=
      rowsToJson (get_grafica_data_for_bot (.ok storeW) 50)
  , system_prompt :=
      buildSystemPrompt (rowsToJson (get_grafica_data_for_bot (.ok storeW) 50))
  , model_available := true
  , chat_session := some (start_chat
      (buildSystemPrompt (rowsToJson (get_grafica_data_for_bot (.ok storeW) 50)))
      initialGreeting) }

/-- Witness for C4: submitting without `produto` changes nothing and yields
the 400 response. -/
theorem claim_C4_witness :
    registrar_pedido stW (some dadosNoProduto) .ok none false =
      (stW, .badRequest incompleteMsg) :=
  claim_C4_missing_required_no_write stW (some dadosNoProduto) .ok none false
    (Or.inr ⟨dadosNoProduto, rfl, Or.inr (Or.inl rfl)⟩)

/-! ### C10: falsy optional fields are stored as NULL -/

/-- C10: on the success path, the single created row stores `NULL` for any of
the optional columns `largura`, `altura`, `tipoCorte`, `extra` whose submitted
value is falsy (`0`, `""`, `null`, ...), and the submitted value itself when
it is truthy — the `or None` coercion of the insert tuple. -/
theorem claim_C10_falsy_optionals_null (st : AppState) (d : Dados)
    (hq : d.quantidade.isSome = true) (hp : d.produto.isSome = true)
    (hv : d.valorFinal.isSome = true) :
    ∃ r, (registrar_pedido st (some d) .ok none false).1.store.rows =
        st.store.rows ++ [r] ∧
      (∀ v, d.largura = some v → v.falsy = true → r.largura = .jnull) ∧
      (∀ v, d.largura = some v → v.falsy = false → r.largura = v) ∧
      (∀ v, d.altura = some v → v.falsy = true → r.altura = .jnull) ∧
      (∀ v, d.altura = some v → v.falsy = false → r.altura = v) ∧
      (∀ v, d.tipoCorte = some v → v.falsy = true → r.tipo_de_corte = .jnull) ∧
      (∀ v, d.tipoCorte = some v → v.falsy = false → r.tipo_de_corte = v) ∧
      (∀ v, d.extra = some v → v.falsy = true → r.extra = .jnull) ∧
      (∀ v, d.extra = some v → v.falsy = false → r.extra = v) := by
  refine ⟨mkRecord st.store.nextId d, ?_, ?_, ?_, ?_, ?_, ?_, ?_, ?_, ?_⟩
  · rw [registrar_pedido_ok st d none false hq hp hv]
    cases st.model_available <;> simp [Store.insert]
  all_goals intro v hvv hf
  all_goals simp [mkRecord, pyGet, pyOrNone, hvv, hf]

/-- A body whose four optional fields are present but falsy (`0` or `""`). -/
def dadosFalsyOpt : Dados :=
  ⟨some (.jint 300), some (.jstr "Adesivos"), some (.jstr "Vinil"),
   some (.jstr "4x0"), some (.jint 0), some (.jstr ""), some (.jstr ""),
   some (.jstr "Sem"), some (.jint 0), some (.jdec ⟨false, 15000, 2⟩)⟩

/-- Witness for C10: width 0, height `""`, cut type `""` and extra 0 are all
persisted as absent. -/
theorem claim_C10_witness :
    ∃ r, (registrar_pedido stW (some dadosFalsyOpt) .ok none false).1.store.rows
        = stW.store.rows ++ [r] ∧
      r.largura = JValue.jnull ∧ r.altura = JValue.jnull ∧
      r.tipo_de_corte = JValue.jnull ∧ r.extra = JValue.jnull := by
  obtain ⟨r, h1, hLf, _, hAf, _, hTf, _, hEf, _⟩ :=
    claim_C10_falsy_optionals_null stW dadosFalsyOpt rfl rfl rfl
  exact ⟨r, h1, hLf _ rfl rfl, hAf _ rfl rfl, hTf _ rfl rfl, hEf _ rfl rfl⟩

/-! ### C5: which fields of a created row are guaranteed present -/

/-- An app state over an empty table. -/
def stEmpty : AppState :=
  { store := ⟨[], 1⟩
  , grafica_data_context := []
  , grafica_json_context := "[]"
  , system_prompt := buildSystemPrompt "[]"
  , model_available := true
  , chat_session := some (start_chat (buildSystemPrompt "[]") initialGreeting) }

/-- A body carrying only the three validated keys: no `material`, no
`impressao`. -/
def dadosNoMaterial : Dados :=
  ⟨some (.jint 500), some (.jstr "Flyers"), none, none, none, none, none,
   none, none, some (.jdec ⟨false, 9900, 2⟩)⟩

/-- C5 fails on the code: the handler validates only `quantidade`, `produto`
and `valorFinal`, so a body without `material` and `impressao` still creates
a row — with both of those columns absent (`NULL`). -/
theorem claim_C5_counterexample :
    (registrar_pedido stEmpty (some dadosNoMaterial) .ok none
        false).1.store.rows.length = stEmpty.store.rows.length + 1 ∧
    ¬ (∀ r ∈ (registrar_pedido stEmpty (some dadosNoMaterial) .ok none
        false).1.store.rows,
        r.material ≠ JValue.jnull ∧ r.impressao ≠ JValue.jnull) := by decide

/-- C5 (amended): every row the handler creates carries the submitted
`quantidade`, `produto` and `valorFinal` values — in particular those three
columns are non-absent whenever the submitted values are non-null; `material`,
`impressao` and all other columns may be absent. -/
theorem claim_C5_required_fields (st : AppState) (d : Dados)
    (vq vp vv : JValue)
    (hq : d.quantidade = some vq) (hp : d.produto = some vp)
    (hv : d.valorFinal = some vv)
    (hq0 : vq ≠ .jnull) (hp0 : vp ≠ .jnull) (hv0 : vv ≠ .jnull) :
    ∃ r, (registrar_pedido st (some d) .ok none false).1.store.rows =
        st.store.rows ++ [r] ∧
      r.quantidade = vq ∧ r.produto = vp ∧ r.valor_final = vv ∧
      r.quantidade ≠ .jnull ∧ r.produto ≠ .jnull ∧ r.valor_final ≠ .jnull := by
  refine ⟨mkRecord st.store.nextId d, ?_, ?_, ?_, ?_, ?_, ?_, ?_⟩
  · rw [registrar_pedido_ok st d none false (by simp [hq]) (by simp [hp])
      (by simp [hv])]
    cases st.model_available <;> simp [Store.insert]
  · simp [mkRecord, pyGet, hq]
  · simp [mkRecord, pyGet, hp]
  · simp [mkRecord, pyGet, hv]
  · simpa [mkRecord, pyGet, hq] using hq0
  · simpa [mkRecord, pyGet, hp] using hp0
  · simpa [mkRecord, pyGet, hv] using hv0

/-- Witness for the amended C5 at a concrete submission. -/
theorem claim_C5_witness :
    ∃ r, (registrar_pedido stW (some dadosFalsyOpt) .ok none
        false).1.store.rows = stW.store.rows ++ [r] ∧
      r.quantidade = JValue.jint 300 ∧ r.produto = JValue.jstr "Adesivos" ∧
      r.valor_final = JValue.jdec ⟨false, 15000, 2⟩ ∧
      r.quantidade ≠ JValue.jnull ∧ r.produto ≠ JValue.jnull ∧
      r.valor_final ≠ JValue.jnull :=
  claim_C5_required_fields stW dadosFalsyOpt _ _ _ rfl rfl rfl (by decide)
    (by decide) (by decide)

/-! ### C7: a refresh failure does not undo the committed insert -/

/-- C7: when `model.start_chat` raises after the insert was committed, the
generic `except` arm's `conn.rollback()` is a no-op on the committed
transaction, so the new row persists; the request is answered with the
generic 500 body, which differs from the 500 body of an order-write
(`psycopg2.Error`) failure, which leaves the store untouched. -/
theorem claim_C7_refresh_failure_keeps_write (st : AppState) (d : Dados)
    (fe : Option DBError)
    (hq : d.quantidade.isSome = true) (hp : d.produto.isSome = true)
    (hv : d.valorFinal.isSome = true) (hm : st.model_available = true) :
    (∃ r, (registrar_pedido st (some d) .ok fe true).1.store.rows =
        st.store.rows ++ [r]) ∧
    (registrar_pedido st (some d) .ok fe true).2 =
      .serverError internalErrorMsg ∧
    registrar_pedido st (some d) .dbError fe true =
      (st, .serverError dbSaveErrorMsg) ∧
    internalErrorMsg ≠ dbSaveErrorMsg := by
  refine ⟨⟨mkRecord st.store.nextId d, ?_⟩, ?_, ?_, by decide⟩
  · rw [registrar_pedido_ok st d fe true hq hp hv]
    simp [hm, Store.insert]
  · rw [registrar_pedido_ok st d fe true hq hp hv]
    simp [hm]
  · simp [registrar_pedido, valid_cond_false d hq hp hv]

/-- A fully populated body used by witnesses. -/
def dadosFull : Dados :=
  ⟨some (.jint 1000), some (.jstr "Cartões"), some (.jstr "Couché 300g"),
   some (.jstr "4x4"), some (.jdec ⟨false, 90, 1⟩),
   some (.jdec ⟨false, 50, 1⟩), some (.jstr "Reto"),
   some (.jstr "Laminação"), none, some (.jdec ⟨false, 123450, 2⟩)⟩

/-- Witness for C7 at a concrete submission whose refresh step fails. -/
theorem claim_C7_witness :
    (∃ r, (registrar_pedido stW (some dadosFull) .ok none true).1.store.rows =
        stW.store.rows ++ [r]) ∧
    (registrar_pedido stW (some dadosFull) .ok none true).2 =
      .serverError internalErrorMsg ∧
    registrar_pedido stW (some dadosFull) .dbError none true =
      (stW, .serverError dbSaveErrorMsg) ∧
    internalErrorMsg ≠ dbSaveErrorMsg :=
  claim_C7_refresh_failure_keeps_write stW dadosFull none rfl rfl rfl rfl

/-! ### C6: the chat handler's caller-visible error contract -/

/-- Whether a chat response is reply text or a 503 (the two outcomes the
claim allows). -/
def ChatResponse.isReplyOr503 : ChatResponse → Bool
  | .reply _ => true
  | .unavailable _ => true
  | .badRequest _ => false

/-- C6 as stated fails on the code: an empty `message` is answered with the
400 response, which is neither reply text nor a 503. -/
theorem claim_C6_counterexample :
    handle_chat stW (some (some (.jstr ""))) (.text "olá") =
      .badRequest emptyMessageMsg ∧
    (handle_chat stW (some (some (.jstr ""))) (.text "olá")).isReplyOr503 =
      false := by
  constructor <;> rfl

/-- C6 (amended): with no valid session the handler answers 503; a safety
block becomes the fixed polite refusal as an ordinary reply; any other
collaborator failure becomes a 503; and every chat request is answered with
reply text, the 400 empty-message response, or a 503 — never an unhandled
failure. -/
theorem claim_C6_chat_contract (st : AppState) (data : Option (Option JValue))
    (oc : GeminiOutcome) :
    ((st.model_available = false ∨ st.chat_session = none) →
      handle_chat st data oc = .unavailable chatUnavailableMsg) ∧
    (st.model_available = true → st.chat_session.isSome = true →
      ∀ m, data = some m → (pyGet m).falsy = false →
        (oc = .stopCandidate → handle_chat st data oc = .reply refusalReply) ∧
        (oc = .failure → handle_chat st data oc = .unavailable chatErrorMsg) ∧
        (∀ t, oc = .text t → handle_chat st data oc = .reply t)) ∧
    ((∃ t, handle_chat st data oc = .reply t) ∨
      handle_chat st data oc = .badRequest emptyMessageMsg ∨
      ∃ e, handle_chat st data oc = .unavailable e) := by
  refine ⟨?_, ?_, ?_⟩
  · rintro (hm | hs)
    · simp [handle_chat, hm]
    · simp [handle_chat, hs]
  · intro hm hs m hd hf
    obtain ⟨sess, hsess⟩ := Option.isSome_iff_exists.mp hs
    subst hd
    refine ⟨?_, ?_, ?_⟩
    · intro ho; subst ho; simp [handle_chat, hm, hsess, hf]
    · intro ho; subst ho; simp [handle_chat, hm, hsess, hf]
    · intro t ho; subst ho; simp [handle_chat, hm, hsess, hf]
  · cases hmv : st.model_available
    · exact Or.inr (Or.inr ⟨chatUnavailableMsg, by simp [handle_chat, hmv]⟩)
    · cases hcs : st.chat_session
      · exact Or.inr (Or.inr ⟨chatUnavailableMsg, by simp [handle_chat, hcs]⟩)
      · cases data with
        | none =>
          exact Or.inr (Or.inr ⟨chatErrorMsg, by simp [handle_chat, hmv, hcs]⟩)
        | some m =>
          cases hf : (pyGet m).falsy
          · cases oc with
            | text t =>
              exact Or.inl ⟨t, by simp [handle_chat, hmv, hcs, hf]⟩
            | stopCandidate =>
              exact Or.inl ⟨refusalReply, by simp [handle_chat, hmv, hcs, hf]⟩
            | failure =>
              exact Or.inr (Or.inr ⟨chatErrorMsg,
                by simp [handle_chat, hmv, hcs, hf]⟩)
          · exact Or.inr (Or.inl (by simp [handle_chat, hmv, hcs, hf]))

/-- Witness for the amended C6: a safety block at a live session is answered
with the fixed refusal reply. -/
theorem claim_C6_witness :
    handle_chat stW (some (some (.jstr "oi"))) .stopCandidate =
      .reply refusalReply :=
  ((claim_C6_chat_contract stW (some (some (.jstr "oi")))
      .stopCandidate).2.1 rfl rfl (some (.jstr "oi")) rfl (by decide)).1 rfl

/-! ### C1: order submission writes one row and refreshes the session -/

/-- A body with all required fields present whose `largura` is the falsy
number 0. -/
def d1cex : Dados :=
  ⟨some (.jint 10), some (.jstr "Banner"), some (.jstr "Lona"),
   some (.jstr "4x0"), some (.jint 0), some (.jdec ⟨false, 100, 0⟩), none,
   some (.jstr "Sem"), none, some (.jdec ⟨false, 123450, 2⟩)⟩

/-- C1 as stated fails on the code: for this request with all required fields
present, no record with matching field values is written — the submitted
`largura = 0` is persisted as `NULL`, not `0`. -/
theorem claim_C1_counterexample :
    ¬ ∃ r : Record,
      (registrar_pedido stEmpty (some d1cex) .ok none false).1.store.rows =
        stEmpty.store.rows ++ [r] ∧ r.largura = JValue.jint 0 := by
  rintro ⟨r, hrows, hlarg⟩
  have h1 : (registrar_pedido stEmpty (some d1cex) .ok none
      false).1.store.rows.getLast? = some r := by
    rw [hrows]; exact List.getLast?_concat _
  have h2 : (registrar_pedido stEmpty (some d1cex) .ok none
      false).1.store.rows.getLast? = some (mkRecord 1 d1cex) := rfl
  rw [h1] at h2
  injection h2 with h3
  subst h3
  exact absurd hlarg (by decide)

/-- C1 (amended): a submission with the required fields present (with the
store reachable and the collaborator healthy) appends exactly one record
whose required fields carry the submitted values and whose optional columns
carry the submitted values after the falsy-to-`NULL` coercion; the refresh
then runs synchronously before the 201 response, so the returned state's
snapshot has the new order at its head and its chat session is seeded with
the prompt embedding that snapshot's serialisation. -/
theorem claim_C1_submit_refresh (st : AppState) (d : Dados)
    (vq vp vv : JValue)
    (hq : d.quantidade = some vq) (hp : d.produto = some vp)
    (hv : d.valorFinal = some vv) (hm : st.model_available = true)
    (hid : ∀ x ∈ st.store.rows, x.id < st.store.nextId) :
    ∃ r,
      (registrar_pedido st (some d) .ok none false).1.store.rows =
        st.store.rows ++ [r] ∧
      r.quantidade = vq ∧ r.produto = vp ∧ r.valor_final = vv ∧
      (∀ v, d.material = some v → r.material = v) ∧
      (∀ v, d.impressao = some v → r.impressao = v) ∧
      (∀ v, d.acabamento = some v → r.acabamento = v) ∧
      (∀ v, d.largura = some v →
        r.largura = if v.falsy then JValue.jnull else v) ∧
      (∀ v, d.altura = some v →
        r.altura = if v.falsy then JValue.jnull else v) ∧
      (∀ v, d.tipoCorte = some v →
        r.tipo_de_corte = if v.falsy then JValue.jnull else v) ∧
      (∀ v, d.extra = some v →
        r.extra = if v.falsy then JValue.jnull else v) ∧
      (registrar_pedido st (some d) .ok none false).2 =
        .created pedidoSuccessMsg ∧
      (registrar_pedido st (some d) .ok none
          false).1.grafica_data_context.head? = some r.toBotRow ∧
      (registrar_pedido st (some d) .ok none false).1.chat_session =
        some (start_chat
          (buildRefreshPrompt (rowsToJson
            ((registrar_pedido st (some d) .ok none
              false).1.grafica_data_context))) refreshAck) := by
  have hq2 : d.quantidade.isSome = true := by simp [hq]
  have hp2 : d.produto.isSome = true := by simp [hp]
  have hv2 : d.valorFinal.isSome = true := by simp [hv]
  have hrw := registrar_pedido_ok st d none false hq2 hp2 hv2
  rw [hm] at hrw
  refine ⟨mkRecord st.store.nextId d, ?_, ?_, ?_, ?_, ?_, ?_, ?_, ?_, ?_, ?_,
    ?_, ?_, ?_, ?_⟩
  · rw [hrw]; simp [Store.insert]
  · simp [mkRecord, pyGet, hq]
  · simp [mkRecord, pyGet, hp]
  · simp [mkRecord, pyGet, hv]
  · intro v hvv; simp [mkRecord, pyGet, hvv]
  · intro v hvv; simp [mkRecord, pyGet, hvv]
  · intro v hvv; simp [mkRecord, pyGet, hvv]
  · intro v hvv; simp [mkRecord, pyGet, pyOrNone, hvv]
  · intro v hvv; simp [mkRecord, pyGet, pyOrNone, hvv]
  · intro v hvv; simp [mkRecord, pyGet, pyOrNone, hvv]
  · intro v hvv; simp [mkRecord, pyGet, pyOrNone, hvv]
  · rw [hrw]; simp
  · rw [hrw]
    show ((((List.insertionSort idGe
        (st.store.rows ++ [mkRecord st.store.nextId d])).take 50).map
        Record.toBotRow).head?) = some (mkRecord st.store.nextId d).toBotRow
    rw [List.head?_map, head?_take_of_ne_zero _ 50 (by decide),
      head_sort_append_max st.store.rows (mkRecord st.store.nextId d) hid]
    rfl
  · rw [hrw]; rfl

/-- Witness for the amended C1 at a concrete fully populated submission. -/
theorem claim_C1_witness :
    ∃ r,
      (registrar_pedido stW (some dadosFull) .ok none false).1.store.rows =
        stW.store.rows ++ [r] ∧
      r.quantidade = JValue.jint 1000 ∧ r.produto = JValue.jstr "Cartões" ∧
      r.valor_final = JValue.jdec ⟨false, 123450, 2⟩ ∧
      (∀ v, dadosFull.material = some v → r.material = v) ∧
      (∀ v, dadosFull.impressao = some v → r.impressao = v) ∧
      (∀ v, dadosFull.acabamento = some v → r.acabamento = v) ∧
      (∀ v, dadosFull.largura = some v →
        r.largura = if v.falsy then JValue.jnull else v) ∧
      (∀ v, dadosFull.altura = some v →
        r.altura = if v.falsy then JValue.jnull else v) ∧
      (∀ v, dadosFull.tipoCorte = some v →
        r.tipo_de_corte = if v.falsy then JValue.jnull else v) ∧
      (∀ v, dadosFull.extra = some v →
        r.extra = if v.falsy then JValue.jnull else v) ∧
      (registrar_pedido stW (some dadosFull) .ok none false).2 =
        .created pedidoSuccessMsg ∧
      (registrar_pedido stW (some dadosFull) .ok none
          false).1.grafica_data_context.head? = some r.toBotRow ∧
      (registrar_pedido stW (some dadosFull) .ok none false).1.chat_session =
        some (start_chat
          (buildRefreshPrompt (rowsToJson
            ((registrar_pedido stW (some dadosFull) .ok none
              false).1.grafica_data_context))) refreshAck) :=
  claim_C1_submit_refresh stW dadosFull _ _ _ rfl rfl rfl rfl (by decide)

/-! ### C8: decimal prices round-trip as exact decimal text -/

/-- The exact decimal `1234.50`. -/
def dec1234_50 : Dec := ⟨false, 123450, 2⟩

/-- A stored row whose final price is the exact decimal `1234.50`. -/
def priceRecord : Record :=
  ⟨1, .jint 1000, .jstr "Cartões", .jstr "Couché", .jstr "4x4", .jnull,
   .jnull, .jnull, .jstr "Laminação", .jnull, .jdec dec1234_50⟩

def priceStore : Store := ⟨[priceRecord], 2⟩

/-- C8: `str(Decimal)` of the stored `1234.50` is the literal `"1234.50"`;
the `DecimalEncoder` serialises every `Decimal` as exactly that string (the
value never passes through a binary float, which does not exist in this
pipeline); and the full serialised context of a store holding the price
`1234.50` re-surfaces the literal text `1234.50`. -/
theorem claim_C8_decimal_round_trip :
    Dec.str dec1234_50 = "1234.50" ∧
    (JValue.jdec dec1234_50).toJson = "\"1234.50\"" ∧
    (∀ d : Dec, (JValue.jdec d).toJson = jsonStr d.str) ∧
    rowsToJson (get_grafica_data_for_bot (.ok priceStore) 50) =
      "[\x7b\"id\":1,\"quantidade\":1000,\"produto\":\"Cartões\",\"material\":\"Couché\",\"impressao\":\"4x4\",\"largura\":null,\"altura\":null,\"valor_final\":\"1234.50\"\x7d]" := by
  exact ⟨rfl, rfl, fun d => rfl, rfl⟩

end ChatbotGrafica
